import Mathlib

/-!
# Workout Log backend — shallow embedding

A Lean model of `WorkoutLogBackend.py`: a small Flask application with two
persisted tables (`users`, `workouts`), JWT-based authentication, and CRUD
routes for workout entries.  Pure data is modelled directly; the SQLAlchemy
session is modelled as an explicit `DB` state threaded through each handler.
`weight_kg` (a Python float used only through arithmetic on exact inputs) is
modelled as `Rat`; `sets`/`reps` (Python ints, nowhere range-checked) as `Int`;
timestamps as `Nat` seconds.
-/

namespace WorkoutLog

/-- The `workouts` table row (model class `Workout`).  `total_volume` is *not*
a column: in the source it is a `@property`, so it deliberately has no field
here. -/
structure Workout where
  id : Nat
  user_id : Nat
  exercise_name : String
  muscle_group : String
  is_cardio : Bool
  sets : Int
  reps : Int
  weight_kg : Rat
  created_at : Nat
deriving DecidableEq, Repr

/-- `Workout.total_volume` property: `0` when cardio, else
`sets * reps * weight_kg`. -/
def Workout.total_volume (w : Workout) : Rat :=
  if w.is_cardio then 0 else (w.sets * w.reps : Int) * w.weight_kg

/-- The serialized form produced by `Workout.to_dict` (note: `user_id` is not
serialized; `total_volume` is computed on the fly). -/
structure WorkoutDict where
  id : Nat
  exercise_name : String
  muscle_group : String
  is_cardio : Bool
  sets : Int
  reps : Int
  weight_kg : Rat
  total_volume : Rat
  created_at : Nat
deriving DecidableEq, Repr

/-- `Workout.to_dict`. -/
def Workout.to_dict (w : Workout) : WorkoutDict :=
  { id := w.id
    exercise_name := w.exercise_name
    muscle_group := w.muscle_group
    is_cardio := w.is_cardio
    sets := w.sets
    reps := w.reps
    weight_kg := w.weight_kg
    total_volume := w.total_volume
    created_at := w.created_at }

/-- Modelled from the spec: the bcrypt password-hashing primitive is an
external collaborator ("assumed to be a vetted adaptive hash"), so it is
modelled as an abstract injective one-way tagging function. -/
def generate_password_hash (password : String) : String :=
  "$2b$12$" ++ password

/-- Modelled from the spec: bcrypt verification succeeds exactly on the
password that produced the stored verifier. -/
def check_password_hash (hash password : String) : Bool :=
  hash == generate_password_hash password

/-- The `users` table row (model class `User`).  The constructor stores the
bcrypt hash of the password, never the plaintext. -/
structure User where
  id : Nat
  username : String
  password_hash : String
deriving DecidableEq, Repr

/-- `User.check_password`. -/
def User.check_password (u : User) (password : String) : Bool :=
  check_password_hash u.password_hash password

/-- The persistent state: the two tables plus autoincrement counters for the
integer primary keys. -/
structure DB where
  users : List User
  workouts : List Workout
  nextUserId : Nat
  nextWorkoutId : Nat
deriving DecidableEq, Repr

/-- A JWT as seen by `jwt.decode`: either not decodable at all, decodable but
with a signature that does not verify against the app secret, or correctly
signed with payload `{user_id, exp}`. -/
inductive Token where
  | malformed : Token
  | badSig (user_id exp : Nat) : Token
  | signed (user_id exp : Nat) : Token
deriving DecidableEq, Repr

/-- JSON response bodies produced by the handlers. -/
inductive Body where
  | msg (m : String) : Body
  | msgErr (m e : String) : Body
  | tok (t : Token) : Body
  | workout (d : WorkoutDict) : Body
deriving DecidableEq, Repr

/-- An HTTP response: status code plus JSON body. -/
structure Response where
  status : Nat
  body : Body
deriving DecidableEq, Repr

/-- `jwt.decode(token, SECRET_KEY, algorithms=["HS256"])`: raises (modelled as
`Except.error` with PyJWT's message) on undecodable input, bad signature, or
an expired `exp` claim (PyJWT rejects when `exp <= now`); otherwise returns
the embedded `user_id`. -/
def jwtDecode (now : Nat) : Token → Except String Nat
  | Token.malformed => Except.error "Not enough segments"
  | Token.badSig _ _ => Except.error "Signature verification failed"
  | Token.signed user_id exp =>
      if exp ≤ now then Except.error "Signature has expired" else Except.ok user_id

/-- The `token_required` decorator: 401 when the `x-access-token` header is
absent; 401 when `jwt.decode` raises; otherwise the wrapped view is called
with `User.query.get(data["user_id"])` — which is `none` (not an error!) when
no such user exists. -/
def token_required (db : DB) (now : Nat) (tok : Option Token) :
    Except Response (Option User) :=
  match tok with
  | none => Except.error ⟨401, Body.msg "Token is missing!"⟩
  | some t =>
      match jwtDecode now t with
      | Except.error e => Except.error ⟨401, Body.msgErr "Token is invalid!" e⟩
      | Except.ok uid => Except.ok (db.users.find? (fun u => u.id == uid))

/-- The parsed JSON body of `/register` and `/login` requests (`none` when
`request.get_json()` yields no object, `Option` fields for missing keys). -/
structure AuthBody where
  username : Option String
  password : Option String
deriving DecidableEq, Repr

/-- Python truthiness of `data.get(key)`: falsy when the key is absent or the
value is the empty string. -/
def isBlank : Option String → Bool
  | none => true
  | some s => s == ""

/-- `POST /register`. -/
def register (db : DB) (data : Option AuthBody) : Response × DB :=
  match data with
  | none => (⟨400, Body.msg "Username and password are required"⟩, db)
  | some d =>
      if isBlank d.username || isBlank d.password then
        (⟨400, Body.msg "Username and password are required"⟩, db)
      else if (db.users.find? (fun u => u.username == d.username.getD "")).isSome then
        (⟨409, Body.msg "Username already exists"⟩, db)
      else
        (⟨201, Body.msg "New user created!"⟩,
         { db with
            users := db.users ++
              [{ id := db.nextUserId
                 username := d.username.getD ""
                 password_hash := generate_password_hash (d.password.getD "") }]
            nextUserId := db.nextUserId + 1 })

/-- `POST /login`: issues a token signed with the app secret whose payload is
`{user_id, exp := now + 24h}`. -/
def login (db : DB) (now : Nat) (auth : Option AuthBody) : Response :=
  match auth with
  | none => ⟨401, Body.msg "Could not verify"⟩
  | some a =>
      if isBlank a.username || isBlank a.password then
        ⟨401, Body.msg "Could not verify"⟩
      else
        match db.users.find? (fun u => u.username == a.username.getD "") with
        | none => ⟨401, Body.msg "User not found"⟩
        | some user =>
            if user.check_password (a.password.getD "") then
              ⟨200, Body.tok (Token.signed user.id (now + 24 * 3600))⟩
            else
              ⟨401, Body.msg "Wrong password"⟩

/-- The parsed JSON body of workout create/update requests: every field
optional, `field in data` modelled by `Option.isSome`. -/
structure WorkoutBody where
  exercise_name : Option String
  muscle_group : Option String
  sets : Option Int
  reps : Option Int
  weight_kg : Option Rat
  is_cardio : Option Bool
deriving DecidableEq, Repr

/-- `all(field in data for field in required_fields)` in `create_workout`. -/
def hasRequired (d : WorkoutBody) : Bool :=
  d.exercise_name.isSome && d.muscle_group.isSome && d.sets.isSome &&
    d.reps.isSome && d.weight_kg.isSome && d.is_cardio.isSome

/-- The row inserted by `create_workout` (autoincrement id, `created_at`
defaulted to the current UTC time).  The `getD` defaults are never reached:
`create_workout` checks `hasRequired` first. -/
def newWorkoutOf (db : DB) (now : Nat) (user : User) (d : WorkoutBody) : Workout :=
  { id := db.nextWorkoutId
    user_id := user.id
    exercise_name := d.exercise_name.getD ""
    muscle_group := d.muscle_group.getD ""
    is_cardio := d.is_cardio.getD false
    sets := d.sets.getD 0
    reps := d.reps.getD 0
    weight_kg := d.weight_kg.getD 0
    created_at := now }

/-- `POST /api/workouts` (after `token_required` has resolved the user). -/
def create_workout (db : DB) (now : Nat) (user : User) (d : WorkoutBody) :
    Response × DB :=
  if hasRequired d then
    let nw := newWorkoutOf db now user d
    (⟨201, Body.workout nw.to_dict⟩,
     { db with workouts := db.workouts ++ [nw], nextWorkoutId := db.nextWorkoutId + 1 })
  else
    (⟨400, Body.msg "Missing required fields"⟩, db)

/-- Ordering used by `order_by(Workout.created_at.desc())`: `a` sorts no later
than `b` when `a` is at least as recent. -/
def moreRecent (a b : Workout) : Prop := b.created_at ≤ a.created_at

instance : DecidableRel moreRecent := fun a b =>
  inferInstanceAs (Decidable (b.created_at ≤ a.created_at))

instance : IsTotal Workout moreRecent :=
  ⟨fun a b => Nat.le_total b.created_at a.created_at⟩

instance : IsTrans Workout moreRecent :=
  ⟨fun _ _ _ hab hbc => Nat.le_trans hbc hab⟩

/-- The rows produced by the query in `get_workouts` before ordering:
the user's rows, further filtered by muscle group when that query parameter
is present and truthy. -/
def userRows (db : DB) (user : User) (muscle_group_filter : Option String) :
    List Workout :=
  let rows := db.workouts.filter (fun w => w.user_id == user.id)
  match muscle_group_filter with
  | none => rows
  | some m => if m == "" then rows else rows.filter (fun w => w.muscle_group == m)

/-- The pagination envelope returned by `GET /api/workouts`. -/
structure PageResponse where
  workouts : List WorkoutDict
  total_pages : Nat
  current_page : Nat
  has_next : Bool
  has_prev : Bool
deriving DecidableEq, Repr

/-- `GET /api/workouts`: `request.args.get` defaults (`page` 1, `per_page` 5),
filtering, `created_at` descending ordering, and
`paginate(page, per_page, error_out=False)` — which clamps `page < 1` to 1,
replaces `per_page < 1` by 20, and returns an empty item list (no error) for
out-of-range pages; `pages` is `ceil(total / per_page)` (0 when no rows). -/
def get_workouts (db : DB) (user : User) (pageArg per_pageArg : Option Int)
    (muscle_group_filter : Option String) : PageResponse :=
  let page : Int := pageArg.getD 1
  let per_page : Int := per_pageArg.getD 5
  let page := if page < 1 then 1 else page
  let per_page := if per_page < 1 then 20 else per_page
  let p : Nat := page.toNat
  let pp : Nat := per_page.toNat
  let sortedRows := List.insertionSort moreRecent (userRows db user muscle_group_filter)
  let total := sortedRows.length
  let items := (sortedRows.drop ((p - 1) * pp)).take pp
  let pages := (total + pp - 1) / pp
  { workouts := items.map Workout.to_dict
    total_pages := pages
    current_page := p
    has_next := p < pages
    has_prev := 1 < p }

/-- The row lookup shared by `update_workout` and `delete_workout`:
`Workout.query.filter_by(id=workout_id, user_id=current_user.id).first()`. -/
def ownedRow (w : Workout) (workout_id uid : Nat) : Bool :=
  w.id == workout_id && w.user_id == uid

/-- The field-by-field mutation performed by `update_workout`:
`data.get(key, old_value)` for each of the six mutable columns. -/
def applyUpdate (d : WorkoutBody) (w : Workout) : Workout :=
  { w with
    exercise_name := d.exercise_name.getD w.exercise_name
    muscle_group := d.muscle_group.getD w.muscle_group
    is_cardio := d.is_cardio.getD w.is_cardio
    sets := d.sets.getD w.sets
    reps := d.reps.getD w.reps
    weight_kg := d.weight_kg.getD w.weight_kg }

/-- Committing the ORM mutation: the first row matched by the query is
replaced by its updated version; all other rows are untouched. -/
def updateFirst (p : Workout → Bool) (f : Workout → Workout) :
    List Workout → List Workout
  | [] => []
  | w :: ws => if p w then f w :: ws else w :: updateFirst p f ws

/-- `PUT /api/workouts/<id>` (after `token_required`). -/
def update_workout (db : DB) (user : User) (workout_id : Nat) (d : WorkoutBody) :
    Response × DB :=
  match db.workouts.find? (fun w => ownedRow w workout_id user.id) with
  | none => (⟨404, Body.msg "Workout not found or unauthorized"⟩, db)
  | some w =>
      (⟨200, Body.workout (applyUpdate d w).to_dict⟩,
       { db with
          workouts := updateFirst (fun x => ownedRow x workout_id user.id)
            (applyUpdate d) db.workouts })

/-- `DELETE /api/workouts/<id>` (after `token_required`): `db.session.delete`
removes the row found by the owner-and-id query. -/
def delete_workout (db : DB) (user : User) (workout_id : Nat) : Response × DB :=
  match db.workouts.find? (fun w => ownedRow w workout_id user.id) with
  | none => (⟨404, Body.msg "Workout not found or unauthorized"⟩, db)
  | some _ =>
      (⟨200, Body.msg "Workout deleted successfully"⟩,
       { db with workouts := db.workouts.eraseP (fun w => ownedRow w workout_id user.id) })

/-- The non-negativity requirement the spec places on workout rows. -/
def workoutNonNeg (w : Workout) : Prop :=
  0 ≤ w.sets ∧ 0 ≤ w.reps ∧ 0 ≤ w.weight_kg

/-- Non-negativity of the numeric fields a request body supplies (absent
fields count as non-negative). -/
def bodyNonNeg (d : WorkoutBody) : Prop :=
  0 ≤ d.sets.getD 0 ∧ 0 ≤ d.reps.getD 0 ∧ 0 ≤ d.weight_kg.getD 0

instance (d : WorkoutBody) : Decidable (bodyNonNeg d) := by
  unfold bodyNonNeg; infer_instance

/-- The state after a successful registration of `uname`/`pw`. -/
def registeredDb (db : DB) (uname pw : String) : DB :=
  { db with
     users := db.users ++ [{ id := db.nextUserId, username := uname,
                             password_hash := generate_password_hash pw }]
     nextUserId := db.nextUserId + 1 }

/-! ## Sample data used by witnesses and counterexamples -/

/-- A store with one registered user `alice` (id 1) and no workouts. -/
def aliceDb : DB :=
  { users := [{ id := 1, username := "alice",
                password_hash := generate_password_hash "pw" }]
    workouts := []
    nextUserId := 2
    nextWorkoutId := 1 }

/-- The user `alice` of `aliceDb`. -/
def alice : User :=
  { id := 1, username := "alice", password_hash := generate_password_hash "pw" }

/-- A create request whose `sets` field is negative. -/
def negSetsBody : WorkoutBody :=
  { exercise_name := some "Bench Press", muscle_group := some "Chest"
    sets := some (-1), reps := some 10, weight_kg := some 20
    is_cardio := some false }

/-- A well-formed, non-negative create request. -/
def posBody : WorkoutBody :=
  { exercise_name := some "Squat", muscle_group := some "Legs"
    sets := some 3, reps := some 10, weight_kg := some 50
    is_cardio := some false }

/-- A cardio workout row with nonzero sets/reps/weight. -/
def cardioSample : Workout :=
  { id := 1, user_id := 1, exercise_name := "Run", muscle_group := "Cardio"
    is_cardio := true, sets := 3, reps := 10, weight_kg := 50, created_at := 0 }

/-- A strength workout row with sets 3, reps 10, weight 50. -/
def strengthSample : Workout :=
  { id := 2, user_id := 1, exercise_name := "Squat", muscle_group := "Legs"
    is_cardio := false, sets := 3, reps := 10, weight_kg := 50, created_at := 0 }

/-- An update request body carrying only `weight_kg := 50`. -/
def weightOnlyBody : WorkoutBody :=
  { exercise_name := none, muscle_group := none, sets := none, reps := none
    weight_kg := some 50, is_cardio := none }

/-- A second registered user `bob` (id 2). -/
def bob : User :=
  { id := 2, username := "bob", password_hash := generate_password_hash "pw2" }

/-- A workout row owned by `bob`. -/
def bobsWorkout : Workout :=
  { id := 10, user_id := 2, exercise_name := "Row", muscle_group := "Back"
    is_cardio := false, sets := 3, reps := 8, weight_kg := 40, created_at := 5 }

/-- A store with the two users and `bob`'s single workout. -/
def twoUserDb : DB :=
  { users := [alice, bob], workouts := [bobsWorkout]
    nextUserId := 3, nextWorkoutId := 11 }

/-- A workout row owned by `alice` with sets 3, reps 10, weight 20. -/
def benchW : Workout :=
  { id := 4, user_id := 1, exercise_name := "Bench Press", muscle_group := "Chest"
    is_cardio := false, sets := 3, reps := 10, weight_kg := 20, created_at := 3 }

/-- A store holding `alice` and her single workout `benchW`. -/
def benchDb : DB :=
  { users := [alice], workouts := [benchW], nextUserId := 2, nextWorkoutId := 5 }

/-- The `i`-th of a dozen workouts owned by `alice` (id and creation time `i`). -/
def dozenW (i : Nat) : Workout :=
  { id := i, user_id := 1, exercise_name := "Deadlift", muscle_group := "Back"
    is_cardio := false, sets := 1, reps := 1, weight_kg := 0, created_at := i }

/-- A store in which `alice` owns twelve workouts. -/
def dozenDb : DB :=
  { users := [alice], workouts := (List.range 12).map (fun i => dozenW (i + 1))
    nextUserId := 2, nextWorkoutId := 13 }

/-! ## Helper lemmas -/

/-- Primary-key uniqueness: two rows of a table with `Nodup` ids that share an
id are the same row. -/
theorem eq_of_id_eq {l : List Workout} (huniq : (l.map Workout.id).Nodup)
    {x y : Workout} (hx : x ∈ l) (hy : y ∈ l) (h : x.id = y.id) : x = y :=
  List.inj_on_of_nodup_map huniq hx hy h

/-- `ownedRow` in propositional form. -/
theorem ownedRow_eq_true_iff {w : Workout} {wid uid : Nat} :
    ownedRow w wid uid = true ↔ w.id = wid ∧ w.user_id = uid := by
  simp [ownedRow]

/-- If the only row with id `wid` is owned by someone else, the
owner-and-id query finds nothing. -/
theorem find?_ownedRow_eq_none {l : List Workout} {w : Workout} {uid : Nat}
    (huniq : (l.map Workout.id).Nodup) (hw : w ∈ l) (hother : w.user_id ≠ uid) :
    l.find? (fun x => ownedRow x w.id uid) = none := by
  refine List.find?_eq_none.mpr ?_
  intro x hx hpx
  rcases ownedRow_eq_true_iff.mp hpx with ⟨hid, hud⟩
  have hxw : x = w := eq_of_id_eq huniq hx hw hid
  exact hother (hxw ▸ hud)

/-- If `w` is a row of the table (ids unique), the owner-and-id query for
`w`'s id and owner finds exactly `w`. -/
theorem find?_ownedRow_eq_some {l : List Workout} {w : Workout}
    (huniq : (l.map Workout.id).Nodup) (hw : w ∈ l) :
    l.find? (fun x => ownedRow x w.id w.user_id) = some w := by
  induction l with
  | nil => cases hw
  | cons h t ih =>
      have hpw : ownedRow w w.id w.user_id = true := ownedRow_eq_true_iff.mpr ⟨rfl, rfl⟩
      by_cases hph : ownedRow h w.id w.user_id = true
      · have hid : h.id = w.id := (ownedRow_eq_true_iff.mp hph).1
        have hhw : h = w := eq_of_id_eq huniq (List.mem_cons_self h t) hw hid
        simp [List.find?, hhw, hpw]
      · have hwt : w ∈ t := by
          rcases List.mem_cons.mp hw with hew | hwt
          · exact absurd (hew ▸ hpw) hph
          · exact hwt
        have huniqt : (t.map Workout.id).Nodup := by
          simpa using (List.nodup_cons.mp (by simpa using huniq)).2
        simp [List.find?, hph, ih huniqt hwt]

/-- `updateFirst` replaces `w` in place when `w` is the unique row matched by
the owner-and-id query. -/
theorem updateFirst_decomp {l : List Workout} {w : Workout}
    (f : Workout → Workout) (huniq : (l.map Workout.id).Nodup) (hw : w ∈ l) :
    ∃ l₁ l₂, l = l₁ ++ w :: l₂ ∧
      updateFirst (fun x => ownedRow x w.id w.user_id) f l = l₁ ++ f w :: l₂ := by
  induction l with
  | nil => cases hw
  | cons h t ih =>
      have hpw : ownedRow w w.id w.user_id = true := ownedRow_eq_true_iff.mpr ⟨rfl, rfl⟩
      by_cases hph : ownedRow h w.id w.user_id = true
      · have hid : h.id = w.id := (ownedRow_eq_true_iff.mp hph).1
        have hhw : h = w := eq_of_id_eq huniq (List.mem_cons_self h t) hw hid
        exact ⟨[], t, by simp [hhw], by simp [updateFirst, hhw, hpw]⟩
      · have hwt : w ∈ t := by
          rcases List.mem_cons.mp hw with hew | hwt
          · exact absurd (hew ▸ hpw) hph
          · exact hwt
        have huniqt : (t.map Workout.id).Nodup := by
          simpa using (List.nodup_cons.mp (by simpa using huniq)).2
        rcases ih huniqt hwt with ⟨l₁, l₂, hsplit, hupd⟩
        exact ⟨h :: l₁, l₂, by simp [hsplit], by simp [updateFirst, hph, hupd]⟩

/-- Every row in an `updateFirst` result is an original row or the update of
an original row. -/
theorem mem_updateFirst {p : Workout → Bool} {f : Workout → Workout}
    {l : List Workout} {x : Workout} (hx : x ∈ updateFirst p f l) :
    x ∈ l ∨ ∃ y, y ∈ l ∧ x = f y := by
  induction l with
  | nil => cases hx
  | cons h t ih =>
      by_cases hph : p h = true
      · simp only [updateFirst, hph, if_pos] at hx
        rcases List.mem_cons.mp hx with hfx | hxt
        · exact Or.inr ⟨h, List.mem_cons_self h t, hfx⟩
        · exact Or.inl (List.mem_cons_of_mem h hxt)
      · simp only [updateFirst, hph, if_neg, Bool.false_eq_true,
          not_false_eq_true] at hx
        rcases List.mem_cons.mp hx with hxh | hxt
        · exact Or.inl (hxh ▸ List.mem_cons_self h t)
        · rcases ih hxt with hmem | ⟨y, hy, hxy⟩
          · exact Or.inl (List.mem_cons_of_mem h hmem)
          · exact Or.inr ⟨y, List.mem_cons_of_mem h hy, hxy⟩

/-- Rows of `userRows` are rows of the table, owned by the user, matching the
muscle-group filter when one is given. -/
theorem mem_userRows {db : DB} {user : User} {mg : Option String} {w : Workout}
    (hw : w ∈ userRows db user mg) :
    w ∈ db.workouts ∧ w.user_id = user.id ∧
      (∀ m, mg = some m → m ≠ "" → w.muscle_group = m) := by
  have base : ∀ {x : Workout}, x ∈ db.workouts.filter (fun y => y.user_id == user.id) →
      x ∈ db.workouts ∧ x.user_id = user.id := by
    intro x hx
    rcases List.mem_filter.mp hx with ⟨h1, h2⟩
    exact ⟨h1, by simpa using h2⟩
  match mg with
  | none =>
      have hw2 : w ∈ db.workouts.filter (fun y => y.user_id == user.id) := hw
      rcases base hw2 with ⟨hmem, hown⟩
      exact ⟨hmem, hown, by intro m hm; cases hm⟩
  | some m =>
      by_cases hm : m = ""
      · have hw2 : w ∈ db.workouts.filter (fun y => y.user_id == user.id) := by
          simpa [userRows, hm] using hw
        rcases base hw2 with ⟨hmem, hown⟩
        refine ⟨hmem, hown, ?_⟩
        intro m2 hm2 hne
        cases hm2
        exact absurd hm hne
      · have hw2 : w ∈ (db.workouts.filter (fun y => y.user_id == user.id)).filter
            (fun y => y.muscle_group == m) := by
          simpa [userRows, hm] using hw
        rcases List.mem_filter.mp hw2 with ⟨hw3, hmg⟩
        rcases base hw3 with ⟨hmem, hown⟩
        refine ⟨hmem, hown, ?_⟩
        intro m2 hm2 _
        cases hm2
        simpa using hmg

/-- If `x` is a strictly most recent row, `insertionSort` by recency puts it
first. -/
theorem insertionSort_max_cons {l : List Workout} {x : Workout} (hx : x ∈ l)
    (hmax : ∀ y ∈ l, y ≠ x → y.created_at < x.created_at) :
    ∃ t, List.insertionSort moreRecent l = x :: t := by
  have hperm := List.perm_insertionSort moreRecent l
  have hxs : x ∈ List.insertionSort moreRecent l := hperm.mem_iff.mpr hx
  have hsorted := List.sorted_insertionSort moreRecent l
  match hs : List.insertionSort moreRecent l with
  | [] => rw [hs] at hxs; cases hxs
  | h :: t =>
      refine ⟨t, ?_⟩
      rw [hs] at hxs hsorted hperm
      have hhl : h ∈ l := hperm.mem_iff.mp (List.mem_cons_self h t)
      by_cases hhx : h = x
      · rw [hhx]
      · have hlt : h.created_at < x.created_at := hmax h hhl hhx
        have hxt : x ∈ t := by
          rcases List.mem_cons.mp hxs with hxe | hxt
          · exact absurd hxe.symm hhx
          · exact hxt
        have hrel : moreRecent h x := (List.pairwise_cons.mp hsorted).1 x hxt
        exact absurd hrel (Nat.not_le.mpr hlt)

/-! ## Claim theorems -/

/-- C2: `token_required` rejects with 401 when the token is absent, malformed,
signature-invalid, or expired; a token issued by a successful login is
accepted strictly before 24 hours (86400 s) after issuance and rejected
at/after expiry.  The final conjunct exhibits the divergence from the claim:
a correctly signed, unexpired token whose `user_id` (7) matches no user is
*not* rejected — the decorator resolves the user to `none` and invokes the
wrapped handler with it instead of returning 401. -/
theorem c2_token_verification :
    token_required aliceDb 0 none = Except.error ⟨401, Body.msg "Token is missing!"⟩
    ∧ token_required aliceDb 0 (some Token.malformed) =
        Except.error ⟨401, Body.msgErr "Token is invalid!" "Not enough segments"⟩
    ∧ token_required aliceDb 0 (some (Token.badSig 1 999999)) =
        Except.error ⟨401, Body.msgErr "Token is invalid!" "Signature verification failed"⟩
    ∧ login aliceDb 0 (some ⟨some "alice", some "pw"⟩) =
        ⟨200, Body.tok (Token.signed 1 86400)⟩
    ∧ (∀ t : Nat, t < 86400 →
        token_required aliceDb t (some (Token.signed 1 86400)) = Except.ok (some alice))
    ∧ (∀ t : Nat, 86400 ≤ t →
        token_required aliceDb t (some (Token.signed 1 86400)) =
          Except.error ⟨401, Body.msgErr "Token is invalid!" "Signature has expired"⟩)
    ∧ aliceDb.users.find? (fun u => u.id == 7) = none
    ∧ token_required aliceDb 0 (some (Token.signed 7 1)) = Except.ok none := by
  refine ⟨rfl, rfl, rfl, rfl, ?_, ?_, rfl, rfl⟩
  · intro t ht
    simp [token_required, jwtDecode, Nat.not_le.mpr ht, aliceDb, alice, List.find?]
  · intro t ht
    simp [token_required, jwtDecode, ht]

/-- C2 witness: the acceptance and expiry conjuncts at concrete instants. -/
theorem c2_token_verification_witness :
    (86399 < 86400 ∧
      token_required aliceDb 86399 (some (Token.signed 1 86400)) = Except.ok (some alice))
    ∧ (86400 ≤ 86400 ∧
      token_required aliceDb 86400 (some (Token.signed 1 86400)) =
        Except.error ⟨401, Body.msgErr "Token is invalid!" "Signature has expired"⟩) :=
  ⟨⟨by decide, c2_token_verification.2.2.2.2.1 86399 (by decide)⟩,
   ⟨by decide, c2_token_verification.2.2.2.2.2.1 86400 (by decide)⟩⟩

/-- C3: the serialized `total_volume` is `0` when `is_cardio` and exactly
`sets * reps * weight_kg` otherwise; it is computed from the current field
values on every serialization (so a partial update immediately changes it) —
it is a derived property, not a stored column. -/
theorem c3_total_volume (w : Workout) (d : WorkoutBody) :
    w.to_dict.total_volume =
      (if w.is_cardio then 0 else (w.sets * w.reps : Int) * w.weight_kg)
    ∧ (w.is_cardio = true → w.to_dict.total_volume = 0)
    ∧ (w.is_cardio = false →
        w.to_dict.total_volume = (w.sets * w.reps : Int) * w.weight_kg)
    ∧ (applyUpdate d w).to_dict.total_volume =
        (if d.is_cardio.getD w.is_cardio then 0
         else ((d.sets.getD w.sets) * (d.reps.getD w.reps) : Int) *
           (d.weight_kg.getD w.weight_kg)) := by
  refine ⟨rfl, ?_, ?_, rfl⟩
  · intro h
    simp [Workout.to_dict, Workout.total_volume, h]
  · intro h
    simp [Workout.to_dict, Workout.total_volume, h]

/-- C3 witness: a cardio workout serializes with volume 0 even with nonzero
sets/reps/weight, and a strength workout with 3×10×50 serializes as 1500. -/
theorem c3_total_volume_witness :
    cardioSample.to_dict.total_volume = 0
    ∧ strengthSample.to_dict.total_volume = 1500 :=
  ⟨(c3_total_volume cardioSample ⟨none, none, none, none, none, none⟩).2.1 rfl,
   by norm_num [strengthSample, Workout.to_dict, Workout.total_volume]⟩

/-- C5 counterexample: both login failures are 401, but the two response
bodies differ (`User not found` vs `Wrong password`), so the responses are
*not* identical and the caller can tell which check failed. -/
theorem c5_login_counterexample :
    (login aliceDb 0 (some ⟨some "mallory", some "pw"⟩)).status = 401
    ∧ (login aliceDb 0 (some ⟨some "alice", some "bad"⟩)).status = 401
    ∧ login aliceDb 0 (some ⟨some "mallory", some "pw"⟩) ≠
        login aliceDb 0 (some ⟨some "alice", some "bad"⟩) := by
  refine ⟨rfl, rfl, ?_⟩
  decide

/-- C5 (amended): both the unknown-username and the wrong-password failure
return status 401 (the same error class), but with distinguishable messages
`User not found` and `Wrong password`. -/
theorem c5_login_amended (db : DB) (now : Nat) (uname pw : String)
    (hu : uname ≠ "") (hp : pw ≠ "") :
    (db.users.find? (fun u => u.username == uname) = none →
        login db now (some ⟨some uname, some pw⟩) = ⟨401, Body.msg "User not found"⟩)
    ∧ (∀ u, db.users.find? (fun u2 => u2.username == uname) = some u →
        u.check_password pw = false →
        login db now (some ⟨some uname, some pw⟩) = ⟨401, Body.msg "Wrong password"⟩) := by
  constructor
  · intro hfind
    simp [login, isBlank, hu, hp, hfind]
  · intro u hfind hcp
    simp [login, isBlank, hu, hp, hfind, hcp]

/-- C5 witness: the two amended branches at concrete inputs. -/
theorem c5_login_amended_witness :
    ("mallory" ≠ "" ∧ "pw" ≠ "" ∧
      login aliceDb 0 (some ⟨some "mallory", some "pw"⟩) = ⟨401, Body.msg "User not found"⟩)
    ∧ ("alice" ≠ "" ∧ "bad" ≠ "" ∧
      login aliceDb 0 (some ⟨some "alice", some "bad"⟩) = ⟨401, Body.msg "Wrong password"⟩) :=
  ⟨⟨by decide, by decide,
    (c5_login_amended aliceDb 0 "mallory" "pw" (by decide) (by decide)).1 (by decide)⟩,
   ⟨by decide, by decide,
    (c5_login_amended aliceDb 0 "alice" "bad" (by decide) (by decide)).2
      alice (by decide) (by decide)⟩⟩

/-- The updated row is non-negative whenever the request body and the prior
row are. -/
theorem applyUpdate_nonneg {d : WorkoutBody} {w : Workout}
    (hd : bodyNonNeg d) (hw : workoutNonNeg w) : workoutNonNeg (applyUpdate d w) := by
  obtain ⟨hs, hr, hx⟩ := hd
  obtain ⟨ws, wr, wx⟩ := hw
  refine ⟨?_, ?_, ?_⟩
  · cases hds : d.sets with
    | none => simpa [applyUpdate, hds] using ws
    | some s => rw [hds] at hs; simpa [applyUpdate, hds] using hs
  · cases hdr : d.reps with
    | none => simpa [applyUpdate, hdr] using wr
    | some r => rw [hdr] at hr; simpa [applyUpdate, hdr] using hr
  · cases hdx : d.weight_kg with
    | none => simpa [applyUpdate, hdx] using wx
    | some x => rw [hdx] at hx; simpa [applyUpdate, hdx] using hx

/-- A freshly created row is non-negative whenever the request body is. -/
theorem newWorkoutOf_nonneg {db : DB} {now : Nat} {user : User} {d : WorkoutBody}
    (hd : bodyNonNeg d) : workoutNonNeg (newWorkoutOf db now user d) := by
  obtain ⟨hs, hr, hx⟩ := hd
  exact ⟨by simpa [newWorkoutOf] using hs, by simpa [newWorkoutOf] using hr,
    by simpa [newWorkoutOf] using hx⟩

/-- C7 counterexample: the code performs no range validation — `Create` with
`sets = -1` succeeds (201) and persists a row with negative `sets`, so the
stated invariant is not maintained by the code as written. -/
theorem c7_invariant_counterexample :
    (create_workout aliceDb 0 alice negSetsBody).1.status = 201
    ∧ ∃ w, w ∈ (create_workout aliceDb 0 alice negSetsBody).2.workouts ∧ w.sets < 0 := by
  refine ⟨rfl, ⟨newWorkoutOf aliceDb 0 alice negSetsBody, ?_, by decide⟩⟩
  decide

/-- C7 (amended): `Create` and `Update` preserve the non-negativity invariant
*provided* the numeric fields supplied by the client are non-negative; the
code itself never checks. -/
theorem c7_nonneg_preserved (db : DB) (now : Nat) (user : User) (d : WorkoutBody)
    (wid : Nat) (hdb : ∀ w ∈ db.workouts, workoutNonNeg w) (hd : bodyNonNeg d) :
    (∀ w ∈ (create_workout db now user d).2.workouts, workoutNonNeg w)
    ∧ (∀ w ∈ (update_workout db user wid d).2.workouts, workoutNonNeg w) := by
  constructor
  · intro w hw
    by_cases hreq : hasRequired d = true
    · simp only [create_workout, hreq, if_pos] at hw
      rcases List.mem_append.mp hw with hold | hnew
      · exact hdb w hold
      · have hwn : w = newWorkoutOf db now user d := by simpa using hnew
        exact hwn ▸ newWorkoutOf_nonneg hd
    · have hreq2 : hasRequired d = false := by simpa using hreq
      simp [create_workout, hreq2] at hw
      exact hdb w hw
  · intro w hw
    rcases hfind : db.workouts.find? (fun x => ownedRow x wid user.id) with _ | w0
    · simp only [update_workout, hfind] at hw
      exact hdb w hw
    · simp only [update_workout, hfind] at hw
      rcases mem_updateFirst hw with hold | ⟨y, hy, hxy⟩
      · exact hdb w hold
      · exact hxy ▸ applyUpdate_nonneg hd (hdb y hy)

/-- C7 witness: the amended preservation at a concrete store and request. -/
theorem c7_nonneg_witness :
    ((∀ w ∈ aliceDb.workouts, workoutNonNeg w) ∧ bodyNonNeg posBody)
    ∧ (∀ w ∈ (create_workout aliceDb 0 alice posBody).2.workouts, workoutNonNeg w) :=
  ⟨⟨fun w hw => by simp [aliceDb] at hw, by decide⟩,
   (c7_nonneg_preserved aliceDb 0 alice posBody 1
      (fun w hw => by simp [aliceDb] at hw) (by decide)).1⟩

/-- C8: `Register` fails 400 when username or password is absent, 409 when
the username is taken (leaving the store unchanged), and otherwise persists
exactly one new `User` carrying the bcrypt verifier of the password (not the
plaintext) and answers 201 with a plain message (no token — the user is not
logged in); after a successful registration, a second registration with the
same username answers 409 and changes nothing. -/
theorem c8_register (db : DB) (uname pw : String) (hu : uname ≠ "") (hp : pw ≠ "") :
    register db none = (⟨400, Body.msg "Username and password are required"⟩, db)
    ∧ (∀ p2, register db (some ⟨none, p2⟩) =
        (⟨400, Body.msg "Username and password are required"⟩, db))
    ∧ (∀ u2, register db (some ⟨u2, none⟩) =
        (⟨400, Body.msg "Username and password are required"⟩, db))
    ∧ ((db.users.find? (fun u => u.username == uname)).isSome = true →
        register db (some ⟨some uname, some pw⟩) =
          (⟨409, Body.msg "Username already exists"⟩, db))
    ∧ ((db.users.find? (fun u => u.username == uname)).isSome = false →
        register db (some ⟨some uname, some pw⟩) =
          (⟨201, Body.msg "New user created!"⟩, registeredDb db uname pw)
        ∧ ∀ pw2, pw2 ≠ "" →
            register (registeredDb db uname pw) (some ⟨some uname, some pw2⟩) =
              (⟨409, Body.msg "Username already exists"⟩, registeredDb db uname pw)) := by
  refine ⟨rfl, fun p2 => rfl, ?_, ?_, ?_⟩
  · intro u2
    cases u2 with
    | none => rfl
    | some s => simp [register, isBlank]
  · intro h
    simp [register, isBlank, hu, hp, h]
  · intro h
    have hnone : db.users.find? (fun u => u.username == uname) = none := by
      cases hfind : db.users.find? (fun u => u.username == uname) with
      | none => rfl
      | some u => rw [hfind] at h; cases h
    constructor
    · simp [register, isBlank, hu, hp, hnone, registeredDb]
    · intro pw2 hp2
      simp [register, isBlank, hu, hp2, registeredDb, List.find?_append, hnone, List.find?]

/-- C8 witness: registering `bob` on the one-user store succeeds with 201 and
a second registration of `bob` answers 409. -/
theorem c8_register_witness :
    ("bob" ≠ "" ∧ "pw2" ≠ "")
    ∧ register aliceDb (some ⟨some "bob", some "pw2"⟩) =
        (⟨201, Body.msg "New user created!"⟩, registeredDb aliceDb "bob" "pw2")
    ∧ register (registeredDb aliceDb "bob" "pw2") (some ⟨some "bob", some "again"⟩) =
        (⟨409, Body.msg "Username already exists"⟩, registeredDb aliceDb "bob" "pw2") :=
  ⟨⟨by decide, by decide⟩,
   ((c8_register aliceDb "bob" "pw2" (by decide) (by decide)).2.2.2.2 (by decide)).1,
   ((c8_register aliceDb "bob" "pw2" (by decide) (by decide)).2.2.2.2 (by decide)).2
     "again" (by decide)⟩

/-- C1: a user `A` distinct from the owner `B` of workout `w` gets exactly
the 404 `Workout not found or unauthorized` response — with the store left
unchanged — from both Update and Delete on `w.id`, and that response is
identical to the one for an id that exists nowhere; `A` can never modify or
delete `B`'s workout. -/
theorem c1_cross_user_not_found (db : DB) (A B : User) (w : Workout) (d : WorkoutBody)
    (hAB : A.id ≠ B.id) (huniq : (db.workouts.map Workout.id).Nodup)
    (hw : w ∈ db.workouts) (hown : w.user_id = B.id) :
    update_workout db A w.id d = (⟨404, Body.msg "Workout not found or unauthorized"⟩, db)
    ∧ delete_workout db A w.id = (⟨404, Body.msg "Workout not found or unauthorized"⟩, db)
    ∧ ∀ i, (∀ x ∈ db.workouts, x.id ≠ i) →
        update_workout db A i d = (⟨404, Body.msg "Workout not found or unauthorized"⟩, db)
        ∧ delete_workout db A i = (⟨404, Body.msg "Workout not found or unauthorized"⟩, db) := by
  have hother : w.user_id ≠ A.id := by
    rw [hown]; exact fun h => hAB h.symm
  have hfind := find?_ownedRow_eq_none huniq hw hother
  refine ⟨by simp only [update_workout, hfind], by simp only [delete_workout, hfind], ?_⟩
  intro i hi
  have hfind2 : db.workouts.find? (fun x => ownedRow x i A.id) = none :=
    List.find?_eq_none.mpr fun x hx hpx => hi x hx (ownedRow_eq_true_iff.mp hpx).1
  exact ⟨by simp only [update_workout, hfind2], by simp only [delete_workout, hfind2]⟩

/-- C1 witness: `alice` attacking `bob`'s workout (and a nonexistent id 999)
gets the identical 404 response and changes nothing. -/
theorem c1_cross_user_not_found_witness :
    (alice.id ≠ bob.id ∧ (twoUserDb.workouts.map Workout.id).Nodup ∧
      bobsWorkout ∈ twoUserDb.workouts ∧ bobsWorkout.user_id = bob.id)
    ∧ update_workout twoUserDb alice bobsWorkout.id weightOnlyBody =
        (⟨404, Body.msg "Workout not found or unauthorized"⟩, twoUserDb)
    ∧ delete_workout twoUserDb alice bobsWorkout.id =
        (⟨404, Body.msg "Workout not found or unauthorized"⟩, twoUserDb)
    ∧ update_workout twoUserDb alice 999 weightOnlyBody =
        (⟨404, Body.msg "Workout not found or unauthorized"⟩, twoUserDb) :=
  ⟨⟨by decide, by decide, by decide, by decide⟩,
   (c1_cross_user_not_found twoUserDb alice bob bobsWorkout weightOnlyBody
      (by decide) (by decide) (by decide) (by decide)).1,
   (c1_cross_user_not_found twoUserDb alice bob bobsWorkout weightOnlyBody
      (by decide) (by decide) (by decide) (by decide)).2.1,
   ((c1_cross_user_not_found twoUserDb alice bob bobsWorkout weightOnlyBody
      (by decide) (by decide) (by decide) (by decide)).2.2 999 (by decide)).1⟩

/-- C4: updating an owned workout replaces exactly the fields present in the
body (absent fields keep their prior value), leaves `id`, `user_id` and
`created_at` untouched, stores the updated row in place of the old one, and
answers 200 with the re-serialized record whose `total_volume` is recomputed
from the updated fields. -/
theorem c4_partial_update (db : DB) (user : User) (w : Workout) (d : WorkoutBody)
    (huniq : (db.workouts.map Workout.id).Nodup) (hw : w ∈ db.workouts)
    (hown : w.user_id = user.id) :
    (∃ l₁ l₂, db.workouts = l₁ ++ w :: l₂ ∧
      update_workout db user w.id d =
        (⟨200, Body.workout (applyUpdate d w).to_dict⟩,
         { db with workouts := l₁ ++ applyUpdate d w :: l₂ }))
    ∧ (applyUpdate d w).id = w.id
    ∧ (applyUpdate d w).user_id = w.user_id
    ∧ (applyUpdate d w).created_at = w.created_at
    ∧ (applyUpdate d w).exercise_name = d.exercise_name.getD w.exercise_name
    ∧ (applyUpdate d w).muscle_group = d.muscle_group.getD w.muscle_group
    ∧ (applyUpdate d w).is_cardio = d.is_cardio.getD w.is_cardio
    ∧ (applyUpdate d w).sets = d.sets.getD w.sets
    ∧ (applyUpdate d w).reps = d.reps.getD w.reps
    ∧ (applyUpdate d w).weight_kg = d.weight_kg.getD w.weight_kg
    ∧ (applyUpdate d w).to_dict.total_volume =
        (if d.is_cardio.getD w.is_cardio then 0
         else ((d.sets.getD w.sets) * (d.reps.getD w.reps) : Int) *
           (d.weight_kg.getD w.weight_kg)) := by
  have hfind : db.workouts.find? (fun x => ownedRow x w.id user.id) = some w := by
    rw [← hown]; exact find?_ownedRow_eq_some huniq hw
  have hdecomp : ∃ l₁ l₂, db.workouts = l₁ ++ w :: l₂ ∧
      updateFirst (fun x => ownedRow x w.id user.id) (applyUpdate d) db.workouts =
        l₁ ++ applyUpdate d w :: l₂ := by
    rw [← hown]; exact updateFirst_decomp (applyUpdate d) huniq hw
  obtain ⟨l₁, l₂, hsplit, hupd⟩ := hdecomp
  refine ⟨⟨l₁, l₂, hsplit, ?_⟩, rfl, rfl, rfl, rfl, rfl, rfl, rfl, rfl, rfl, rfl⟩
  simp only [update_workout, hfind, hupd]

/-- C4 witness: the claim's own example — updating `benchW` (sets 3, reps 10)
with only `weight_kg := 50` leaves name and muscle group unchanged and
recomputes the serialized volume to 1500. -/
theorem c4_partial_update_witness :
    ((benchDb.workouts.map Workout.id).Nodup ∧ benchW ∈ benchDb.workouts ∧
      benchW.user_id = alice.id)
    ∧ (applyUpdate weightOnlyBody benchW).exercise_name = "Bench Press"
    ∧ (applyUpdate weightOnlyBody benchW).muscle_group = "Chest"
    ∧ (applyUpdate weightOnlyBody benchW).id = benchW.id
    ∧ (applyUpdate weightOnlyBody benchW).user_id = benchW.user_id
    ∧ (applyUpdate weightOnlyBody benchW).created_at = benchW.created_at
    ∧ (applyUpdate weightOnlyBody benchW).to_dict.total_volume = 1500 :=
  ⟨⟨by decide, by decide, by decide⟩,
   (c4_partial_update benchDb alice benchW weightOnlyBody
      (by decide) (by decide) (by decide)).2.2.2.2.1,
   (c4_partial_update benchDb alice benchW weightOnlyBody
      (by decide) (by decide) (by decide)).2.2.2.2.2.1,
   (c4_partial_update benchDb alice benchW weightOnlyBody
      (by decide) (by decide) (by decide)).2.1,
   (c4_partial_update benchDb alice benchW weightOnlyBody
      (by decide) (by decide) (by decide)).2.2.1,
   (c4_partial_update benchDb alice benchW weightOnlyBody
      (by decide) (by decide) (by decide)).2.2.2.1,
   by norm_num [applyUpdate, weightOnlyBody, benchW, Workout.to_dict,
     Workout.total_volume]⟩

/-- C10: deleting an owned workout answers 200 with the confirmation message
and removes exactly that one row: the user table and the counters are
untouched, the old workout table is a permutation of the deleted row consed
onto the new one, and a row survives iff it was present before and is not the
deleted one. -/
theorem c10_delete_frame (db : DB) (user : User) (w : Workout)
    (huniq : (db.workouts.map Workout.id).Nodup) (hw : w ∈ db.workouts)
    (hown : w.user_id = user.id) :
    ∃ db2, delete_workout db user w.id = (⟨200, Body.msg "Workout deleted successfully"⟩, db2)
      ∧ db2.users = db.users
      ∧ db2.nextUserId = db.nextUserId
      ∧ db2.nextWorkoutId = db.nextWorkoutId
      ∧ List.Perm db.workouts (w :: db2.workouts)
      ∧ (∀ x, x ∈ db2.workouts ↔ x ∈ db.workouts ∧ x ≠ w) := by
  have hpw : ownedRow w w.id user.id = true := ownedRow_eq_true_iff.mpr ⟨rfl, hown⟩
  have hfind : db.workouts.find? (fun x => ownedRow x w.id user.id) = some w := by
    rw [← hown]; exact find?_ownedRow_eq_some huniq hw
  obtain ⟨b, l₁, l₂, hl₁, hpb, hsplit, herase⟩ :=
    @List.exists_of_eraseP Workout (fun x => ownedRow x w.id user.id) db.workouts w hw hpw
  have hbmem : b ∈ db.workouts := by
    rw [hsplit]; exact List.mem_append.mpr (Or.inr (List.mem_cons_self b l₂))
  have hbw : b = w := eq_of_id_eq huniq hbmem hw (ownedRow_eq_true_iff.mp hpb).1
  subst hbw
  have hnd : db.workouts.Nodup := List.Nodup.of_map _ huniq
  refine ⟨{ db with workouts := db.workouts.eraseP (fun x => ownedRow x b.id user.id) },
    by simp only [delete_workout, hfind], rfl, rfl, rfl, ?_, ?_⟩
  · rw [herase]
    conv_lhs => rw [hsplit]
    exact List.perm_middle
  · have hperm : List.Perm db.workouts
        (b :: db.workouts.eraseP (fun x => ownedRow x b.id user.id)) := by
      rw [herase]
      conv_lhs => rw [hsplit]
      exact List.perm_middle
    have hnd2 := hperm.nodup_iff.mp hnd
    have hbnot : b ∉ db.workouts.eraseP (fun x => ownedRow x b.id user.id) :=
      (List.nodup_cons.mp hnd2).1
    intro x
    constructor
    · intro hx
      refine ⟨hperm.mem_iff.mpr (List.mem_cons_of_mem b hx), ?_⟩
      intro he
      exact hbnot (he ▸ hx)
    · rintro ⟨hx, hne⟩
      rcases List.mem_cons.mp (hperm.mem_iff.mp hx) with he | hx2
      · exact absurd he hne
      · exact hx2

/-- C10 witness: `bob` deleting his one workout from the two-user store. -/
theorem c10_delete_frame_witness :
    ((twoUserDb.workouts.map Workout.id).Nodup ∧ bobsWorkout ∈ twoUserDb.workouts ∧
      bobsWorkout.user_id = bob.id)
    ∧ ∃ db2, delete_workout twoUserDb bob bobsWorkout.id =
        (⟨200, Body.msg "Workout deleted successfully"⟩, db2)
      ∧ db2.users = twoUserDb.users
      ∧ db2.nextUserId = twoUserDb.nextUserId
      ∧ db2.nextWorkoutId = twoUserDb.nextWorkoutId
      ∧ List.Perm twoUserDb.workouts (bobsWorkout :: db2.workouts)
      ∧ (∀ x, x ∈ db2.workouts ↔ x ∈ twoUserDb.workouts ∧ x ≠ bobsWorkout) :=
  ⟨⟨by decide, by decide, by decide⟩,
   c10_delete_frame twoUserDb bob bobsWorkout (by decide) (by decide) (by decide)⟩

/-- Unfolding of the item list computed by `get_workouts`. -/
theorem get_workouts_workouts_eq (db : DB) (user : User) (po ppo : Option Int)
    (f : Option String) :
    (get_workouts db user po ppo f).workouts =
      (((List.insertionSort moreRecent (userRows db user f)).drop
          (((if po.getD 1 < 1 then 1 else po.getD 1).toNat - 1) *
            (if ppo.getD 5 < 1 then 20 else ppo.getD 5).toNat)).take
        (if ppo.getD 5 < 1 then 20 else ppo.getD 5).toNat).map Workout.to_dict := rfl

/-- C6: `page`/`per_page` default to 1 and 5 when absent; every returned item
serializes a stored row of the caller, matching the muscle-group filter when
one is given; items are ordered by creation time descending; with 12 owned
workouts and `per_page = 5`, `total_pages = 3`, page 1 has `has_prev = false`
and `has_next = true`, page 3 has 2 items and `has_next = false`; and any
page past the data yields an empty item list, not an error. -/
theorem c6_list_pagination (db : DB) (user : User) :
    (∀ f, get_workouts db user none none f = get_workouts db user (some 1) (some 5) f)
    ∧ (∀ po ppo f,
        (∀ dct ∈ (get_workouts db user po ppo f).workouts,
          ∃ w, w ∈ db.workouts ∧ w.user_id = user.id ∧ w.to_dict = dct ∧
            ∀ m, f = some m → m ≠ "" → w.muscle_group = m)
        ∧ (get_workouts db user po ppo f).workouts.Pairwise
            (fun a b => b.created_at ≤ a.created_at))
    ∧ (∀ (p pp : Int) f, 1 ≤ pp →
        (userRows db user f).length ≤ ((if p < 1 then 1 else p).toNat - 1) * pp.toNat →
        (get_workouts db user (some p) (some pp) f).workouts = [])
    ∧ (get_workouts dozenDb alice (some 1) (some 5) none).total_pages = 3
    ∧ (get_workouts dozenDb alice (some 1) (some 5) none).has_prev = false
    ∧ (get_workouts dozenDb alice (some 1) (some 5) none).has_next = true
    ∧ (get_workouts dozenDb alice (some 3) (some 5) none).workouts.length = 2
    ∧ (get_workouts dozenDb alice (some 3) (some 5) none).has_next = false
    ∧ (get_workouts dozenDb alice (some 4) (some 5) none).workouts = [] := by
  refine ⟨fun f => rfl, ?_, ?_, by decide, by decide, by decide, by decide, by decide,
    by decide⟩
  · intro po ppo f
    constructor
    · intro dct hd
      rw [get_workouts_workouts_eq] at hd
      rcases List.mem_map.mp hd with ⟨w, hw_items, hdict⟩
      have hw_drop := (List.take_sublist _ _).subset hw_items
      have hw_sorted := (List.drop_sublist _ _).subset hw_drop
      have hw_rows : w ∈ userRows db user f :=
        (List.perm_insertionSort moreRecent _).mem_iff.mp hw_sorted
      obtain ⟨hmem, hown, hmg⟩ := mem_userRows hw_rows
      exact ⟨w, hmem, hown, hdict, hmg⟩
    · rw [get_workouts_workouts_eq]
      refine List.pairwise_map.mpr ?_
      have hsorted : (List.insertionSort moreRecent (userRows db user f)).Pairwise
          moreRecent := List.sorted_insertionSort moreRecent (userRows db user f)
      exact ((hsorted.sublist (List.drop_sublist _ _)).sublist
        (List.take_sublist _ _)).imp (fun h => h)
  · intro p pp f hpp hlen
    rw [get_workouts_workouts_eq]
    have e1 : (Option.getD (some p) 1 : Int) = p := rfl
    have e2 : (Option.getD (some pp) 5 : Int) = pp := rfl
    rw [e1, e2, if_neg (by omega : ¬ pp < 1)]
    have hlen2 : (List.insertionSort moreRecent (userRows db user f)).length ≤
        ((if p < 1 then 1 else p).toNat - 1) * pp.toNat := by
      rw [(List.perm_insertionSort moreRecent (userRows db user f)).length_eq]
      exact hlen
    rw [List.drop_eq_nil_of_le hlen2]
    simp

/-- C6 witness: the general conjuncts of `c6_list_pagination` instantiated on
the twelve-workout store — a returned item of page 1 is a stored row of
`alice`, and the out-of-range page 4 is empty. -/
theorem c6_list_pagination_witness :
    (∃ w, w ∈ dozenDb.workouts ∧ w.user_id = alice.id ∧ w.to_dict = (dozenW 12).to_dict ∧
      ∀ m, (none : Option String) = some m → m ≠ "" → w.muscle_group = m)
    ∧ ((1 : Int) ≤ 5 ∧
        (userRows dozenDb alice none).length ≤
          ((if (4:Int) < 1 then (1:Int) else 4).toNat - 1) * (5:Int).toNat ∧
        (get_workouts dozenDb alice (some 4) (some 5) none).workouts = []) :=
  ⟨((c6_list_pagination dozenDb alice).2.1 (some 1) (some 5) none).1
      (dozenW 12).to_dict (List.mem_of_mem_head? rfl),
   ⟨by decide, by decide,
    (c6_list_pagination dozenDb alice).2.2.1 4 5 none (by decide) (by decide)⟩⟩

/-- C9: after a valid Create, an immediate List (page 1, no filter) returns
the created workout as the first (most recent) item, serialized identically
to the Create response. -/
theorem c9_create_then_list (db : DB) (now : Nat) (user : User) (d : WorkoutBody)
    (hreq : hasRequired d = true)
    (hfresh : ∀ w ∈ db.workouts, w.created_at < now) :
    (create_workout db now user d).1 =
      ⟨201, Body.workout (newWorkoutOf db now user d).to_dict⟩
    ∧ (get_workouts (create_workout db now user d).2 user none none none).workouts.head? =
        some (newWorkoutOf db now user d).to_dict := by
  have h1 : (create_workout db now user d).1 =
      ⟨201, Body.workout (newWorkoutOf db now user d).to_dict⟩ := by
    simp [create_workout, hreq]
  refine ⟨h1, ?_⟩
  have hdb2 : (create_workout db now user d).2.workouts =
      db.workouts ++ [newWorkoutOf db now user d] := by
    simp [create_workout, hreq]
  have hur : userRows (create_workout db now user d).2 user none =
      db.workouts.filter (fun w => w.user_id == user.id) ++ [newWorkoutOf db now user d] := by
    simp only [userRows, hdb2, List.filter_append]
    simp [List.filter, newWorkoutOf]
  have hmem : newWorkoutOf db now user d ∈
      db.workouts.filter (fun w => w.user_id == user.id) ++ [newWorkoutOf db now user d] :=
    List.mem_append.mpr (Or.inr (List.mem_cons_self _ _))
  have hmax : ∀ y ∈ db.workouts.filter (fun w => w.user_id == user.id) ++
      [newWorkoutOf db now user d], y ≠ newWorkoutOf db now user d →
      y.created_at < (newWorkoutOf db now user d).created_at := by
    intro y hy hne
    rcases List.mem_append.mp hy with hyl | hyr
    · exact hfresh y (List.mem_filter.mp hyl).1
    · exact absurd (List.mem_singleton.mp hyr) hne
  obtain ⟨t, hsort⟩ := insertionSort_max_cons hmem hmax
  rw [get_workouts_workouts_eq, hur, hsort]
  rfl

/-- C9 witness: creating `posBody` for `alice` on the bench store (whose only
row is older) and listing page 1 puts the new workout first with the same
serialization as the Create response. -/
theorem c9_create_then_list_witness :
    (hasRequired posBody = true ∧ (∀ w ∈ benchDb.workouts, w.created_at < 7))
    ∧ (create_workout benchDb 7 alice posBody).1 =
        ⟨201, Body.workout (newWorkoutOf benchDb 7 alice posBody).to_dict⟩
    ∧ (get_workouts (create_workout benchDb 7 alice posBody).2 alice
        none none none).workouts.head? =
        some (newWorkoutOf benchDb 7 alice posBody).to_dict :=
  ⟨⟨by decide, by decide⟩,
   (c9_create_then_list benchDb 7 alice posBody (by decide) (by decide)).1,
   (c9_create_then_list benchDb 7 alice posBody (by decide) (by decide)).2⟩

end WorkoutLog
